import Mathlib

/-!
Shallow embedding of `model.py` (BayesSegNet-Pytorch): a SegNet-style
encoder-decoder segmentation network with two Bayesian (MC-dropout) variants.

Tensors are 4-dimensional (batch x channels x height x width) arrays over ℚ,
represented by explicit shape fields together with a total data function. The
tensor-runtime primitives used by the source (3x3 padding-1 convolution,
per-channel batch normalization, ReLU, 2x2 stride-2 max-pooling with argmax
indices, max-unpooling, channel-wise dropout, per-pixel channel softmax) are
modelled as pure functions over these tensors; the network code of `model.py`
is then translated on top of them. Batch normalization is modelled as the
per-channel affine map it computes with fixed statistics (its parameters are
opaque learned data). The exponential inside the softmax is a runtime
numerical primitive and is passed in as an abstract function `e : ℚ → ℚ`;
the only fact used about it is positivity. Dropout randomness is passed in
explicitly as a per-(batch, channel) Boolean mask.
-/

/-- A 4-d feature tensor: shape fields plus a total data function
(values at coordinates outside the shape are irrelevant padding). -/
structure Tensor where
  batch : Nat
  channels : Nat
  height : Nat
  width : Nat
  data : Nat → Nat → Nat → Nat → ℚ

/-- An index tensor as returned by max-pooling with `return_indices=True`:
same layout as a feature tensor, but each entry is a flat spatial offset
(row * input_width + column) into the pre-pooling spatial plane. -/
structure IdxTensor where
  batch : Nat
  channels : Nat
  height : Nat
  width : Nat
  data : Nat → Nat → Nat → Nat → Nat

/-- A 4-d size, as produced by `x.size()` in the source's forward pass. -/
structure Size4 where
  batch : Nat
  channels : Nat
  height : Nat
  width : Nat
deriving DecidableEq

/-- `x.size()`. -/
def sizeOf4 (t : Tensor) : Size4 :=
  ⟨t.batch, t.channels, t.height, t.width⟩

/-- Parameters of an `nn.Conv2d(in_channels, out_channels, kernel_size=3,
padding=1)` layer: declared channel counts plus learned weight and bias. -/
structure Conv2dParams where
  inC : Nat
  outC : Nat
  weight : Nat → Nat → Nat → Nat → ℚ
  bias : Nat → ℚ

/-- The 3x3, padding-1 convolution (`nn.Conv2d(..., kernel_size=3, padding=1)`).
Spatial size is preserved; channel count becomes `p.outC`. Positions that a
kernel tap would read outside the input plane contribute zero (zero padding). -/
def conv3x3 (p : Conv2dParams) (x : Tensor) : Tensor :=
  ⟨x.batch, p.outC, x.height, x.width, fun n co i j =>
    p.bias co +
      ∑ ci ∈ Finset.range p.inC, ∑ di ∈ Finset.range 3, ∑ dj ∈ Finset.range 3,
        p.weight co ci di dj *
          (if 1 ≤ i + di ∧ i + di - 1 < x.height ∧ 1 ≤ j + dj ∧ j + dj - 1 < x.width
           then x.data n ci (i + di - 1) (j + dj - 1) else 0)⟩

/-- Parameters of an `nn.BatchNorm2d` layer with fixed statistics: the
normalization it applies is the per-channel affine map
`v ↦ scale c * v + shift c` (with `scale = γ / sqrt(σ² + ε)` and
`shift = β - scale * μ` folded into opaque learned data). -/
structure BN2dParams where
  scale : Nat → ℚ
  shift : Nat → ℚ

/-- `nn.BatchNorm2d` as the per-channel affine transform it computes. -/
def batchNorm2d (p : BN2dParams) (x : Tensor) : Tensor :=
  { x with data := fun n c i j => p.scale c * x.data n c i j + p.shift c }

/-- `nn.ReLU`: pointwise `max 0`. -/
def reluT (x : Tensor) : Tensor :=
  { x with data := fun n c i j => max 0 (x.data n c i j) }

/-- One Conv-BatchNorm-ReLU unit as produced by `_make_layer`. -/
structure ConvUnit where
  conv : Conv2dParams
  bn : BN2dParams

/-- Applying one `_make_layer` unit: Conv2d, then BatchNorm2d, then ReLU. -/
def applyUnit (u : ConvUnit) (x : Tensor) : Tensor :=
  reluT (batchNorm2d u.bn (conv3x3 u.conv x))

/-- `nn.Sequential` over a list of Conv-BN-ReLU units: apply in order. -/
def applyUnits : List ConvUnit → Tensor → Tensor
  | [], x => x
  | u :: rest, x => applyUnits rest (applyUnit u x)

/-- Freshly initialized learned data for one `_make_layer` unit (the runtime's
parameter initializer is an opaque external collaborator, so initial values
are inputs of the model). -/
structure UnitInit where
  weight : Nat → Nat → Nat → Nat → ℚ
  bias : Nat → ℚ
  scale : Nat → ℚ
  shift : Nat → ℚ

/-- `_make_layer(in_channels, out_channels)`: builds one Conv-BN-ReLU unit
with the given channel configuration from fresh parameter data. -/
def makeLayer (inC outC : Nat) (p : UnitInit) : ConvUnit :=
  ⟨⟨inC, outC, p.weight, p.bias⟩, ⟨p.scale, p.shift⟩⟩

/-- The declared channel configuration (in, out) of a unit. -/
def unitChannels (u : ConvUnit) : Nat × Nat :=
  (u.conv.inC, u.conv.outC)

/-- The list of spatial positions of an `h x w` plane in row-major order
(the iteration order of the runtime's scatter). -/
def rowMajor (h w : Nat) : List (Nat × Nat) :=
  (List.range h).flatMap (fun i => (List.range w).map (fun j => (i, j)))

/-- 2x2, stride-2 max-pooling with indices
(`nn.MaxPool2d(kernel_size=2, stride=2, return_indices=True)`).
Each output cell takes the maximum of its 2x2 input window, and the index
tensor records the flat offset `row * width + column` of the position that
attained it (first such position in row-major order on ties). Output spatial
size is the floor of half the input size in each dimension. -/
def maxPool2 (x : Tensor) : Tensor × IdxTensor :=
  let best := fun (n c i j : Nat) =>
    [(2*i, 2*j+1), (2*i+1, 2*j), (2*i+1, 2*j+1)].foldl
      (fun b p => if x.data n c b.1 b.2 < x.data n c p.1 p.2 then p else b)
      (2*i, 2*j)
  (⟨x.batch, x.channels, x.height / 2, x.width / 2,
     fun n c i j => x.data n c (best n c i j).1 (best n c i j).2⟩,
   ⟨x.batch, x.channels, x.height / 2, x.width / 2,
     fun n c i j => (best n c i j).1 * x.width + (best n c i j).2⟩)

/-- Output height of `nn.MaxUnpool2d(2, 2)`: the target size's height when an
`output_size` is provided, else exactly double the input height. -/
def unpoolH (x : Tensor) : Option Size4 → Nat
  | some s => s.height
  | none => 2 * x.height

/-- Output width of `nn.MaxUnpool2d(2, 2)`: the target size's width when an
`output_size` is provided, else exactly double the input width. -/
def unpoolW (x : Tensor) : Option Size4 → Nat
  | some s => s.width
  | none => 2 * x.width

/-- `nn.MaxUnpool2d(kernel_size=2, stride=2)`: scatters each input value to
the output spatial position recorded for it in the index tensor, leaving
zeros everywhere no index points; on duplicate indices the row-major-last
write wins (the runtime's sequential scatter order). -/
def maxUnpool2 (x : Tensor) (idx : IdxTensor) (osize : Option Size4) : Tensor :=
  ⟨x.batch, x.channels, unpoolH x osize, unpoolW x osize, fun n c p q =>
    match ((rowMajor x.height x.width).filter
        (fun ij => idx.data n c ij.1 ij.2 = p * unpoolW x osize + q)).getLast? with
    | some ij => x.data n c ij.1 ij.2
    | none => 0⟩

/-- `nn.Dropout2d(0.5, inplace=False)` with explicit randomness: in training
mode each (batch, channel) feature plane is zeroed when its mask bit is set
and otherwise rescaled by `1/(1-p) = 2`; in evaluation mode it is the
identity. -/
def dropout2d (training : Bool) (mask : Nat → Nat → Bool) (x : Tensor) : Tensor :=
  match training with
  | false => x
  | true => { x with data := fun n c i j => if mask n c then 0 else 2 * x.data n c i j }

/-- An encoder block (`_EncBlock` / `_BayesEncBlock`): its Conv-BN-ReLU unit
stack plus whether a trailing Dropout2d is attached (the Bayesian variant). -/
structure EncBlockB where
  units : List ConvUnit
  bayes : Bool

/-- A decoder block (`_DecBlock` / `_BayesDecBlock`): its Conv-BN-ReLU unit
stack plus whether a trailing Dropout2d is attached (the Bayesian variant). -/
structure DecBlockB where
  units : List ConvUnit
  bayes : Bool

/-- `_EncBlock.__init__` (and `_BayesEncBlock.__init__` when `bayes = true`):
the first unit maps `inC → outC` and each of the `num_layers - 1` following
units maps `outC → outC` (`for _ in range(num_layers - 1)`, so nonpositive
counts yield no extra units). Fresh unit parameters come from the supply `ps`. -/
def mkEncBlock (inC outC : Nat) (numLayers : Int) (bayes : Bool)
    (ps : Nat → UnitInit) : EncBlockB :=
  ⟨makeLayer inC outC (ps 0) ::
     (List.range (numLayers - 1).toNat).map (fun k => makeLayer outC outC (ps (k+1))),
   bayes⟩

/-- `_DecBlock.__init__` (and `_BayesDecBlock.__init__` when `bayes = true`):
`num_layers - 1` units mapping `inC → inC` followed by one final unit mapping
`inC → outC`. -/
def mkDecBlock (inC outC : Nat) (numLayers : Int) (bayes : Bool)
    (ps : Nat → UnitInit) : DecBlockB :=
  ⟨(List.range (numLayers - 1).toNat).map (fun k => makeLayer inC inC (ps k)) ++
     [makeLayer inC outC (ps (numLayers - 1).toNat)],
   bayes⟩

/-- `_EncBlock.forward` / `_BayesEncBlock.forward`: apply the unit stack, then
the 2x2 stride-2 max-pool returning (pooled tensor, indices); the Bayesian
variant then passes the pooled tensor (only) through Dropout2d. -/
def encForward (b : EncBlockB) (training : Bool) (mask : Nat → Nat → Bool)
    (x : Tensor) : Tensor × IdxTensor :=
  let p := maxPool2 (applyUnits b.units x)
  (if b.bayes then dropout2d training mask p.1 else p.1, p.2)

/-- `_DecBlock.forward` / `_BayesDecBlock.forward`: max-unpool the input with
the given indices and optional target size, then apply the unit stack; the
Bayesian variant then applies Dropout2d to the result. -/
def decForward (b : DecBlockB) (training : Bool) (mask : Nat → Nat → Bool)
    (x : Tensor) (idx : IdxTensor) (osize : Option Size4) : Tensor :=
  let y := applyUnits b.units (maxUnpool2 x idx osize)
  if b.bayes then dropout2d training mask y else y

/-- `nn.Softmax2d`: at every (batch, row, column) position, the channel vector
is normalized to `e vᵢ / Σ_c e v_c`, where `e` is the runtime's exponential. -/
def softmax2d (e : ℚ → ℚ) (x : Tensor) : Tensor :=
  { x with data := fun n c i j => (e (x.data n c i j) /
      ∑ k ∈ Finset.range x.channels, e (x.data n k i j)) }

/-- The `SegNet` module structure: five encoder blocks, five decoder blocks,
the final classification convolution. (`self.softmax` holds no data.) -/
structure SegNet where
  encoder0 : EncBlockB
  encoder1 : EncBlockB
  encoder2 : EncBlockB
  encoder3 : EncBlockB
  encoder4 : EncBlockB
  decoder4 : DecBlockB
  decoder3 : DecBlockB
  decoder2 : DecBlockB
  decoder1 : DecBlockB
  decoder0 : DecBlockB
  conv : Conv2dParams

/-- Fresh-parameter supplies for building a `SegNet`: per encoder stage and
unit, per decoder stage and unit, and the final convolution's weight/bias. -/
structure SegNetInit where
  enc : Nat → Nat → UnitInit
  dec : Nat → Nat → UnitInit
  convW : Nat → Nat → Nat → Nat → ℚ
  convB : Nat → ℚ

/-- `SegNet.__init__(in_channels, out_channels)`: the fixed topology of
`model.py` lines 95-108. -/
def mkSegNet (inC outC : Nat) (I : SegNetInit) : SegNet :=
  { encoder0 := mkEncBlock inC 64 2 false (I.enc 0)
    encoder1 := mkEncBlock 64 128 2 false (I.enc 1)
    encoder2 := mkEncBlock 128 256 3 false (I.enc 2)
    encoder3 := mkEncBlock 256 512 3 false (I.enc 3)
    encoder4 := mkEncBlock 512 512 3 false (I.enc 4)
    decoder4 := mkDecBlock 512 512 3 false (I.dec 4)
    decoder3 := mkDecBlock 512 256 3 false (I.dec 3)
    decoder2 := mkDecBlock 256 128 3 false (I.dec 2)
    decoder1 := mkDecBlock 128 64 2 false (I.dec 1)
    decoder0 := mkDecBlock 64 64 1 false (I.dec 0)
    conv := ⟨64, outC, I.convW, I.convB⟩ }

/-- `SegNet.forward`: record each stage's pre-pooling size, run encoders 0→4,
run decoders 4→0 each with its mirror stage's indices and recorded size, then
the final 3x3 padded convolution and the per-pixel softmax. The masks `em k`
and `dm k` are the dropout randomness of encoder/decoder stage `k` (unused by
non-Bayesian blocks). -/
def segnetForward (e : ℚ → ℚ) (net : SegNet) (training : Bool)
    (em dm : Nat → Nat → Nat → Bool) (x : Tensor) : Tensor :=
  let dim0 := sizeOf4 x
  let r0 := encForward net.encoder0 training (em 0) x
  let dim1 := sizeOf4 r0.1
  let r1 := encForward net.encoder1 training (em 1) r0.1
  let dim2 := sizeOf4 r1.1
  let r2 := encForward net.encoder2 training (em 2) r1.1
  let dim3 := sizeOf4 r2.1
  let r3 := encForward net.encoder3 training (em 3) r2.1
  let dim4 := sizeOf4 r3.1
  let r4 := encForward net.encoder4 training (em 4) r3.1
  let y4 := decForward net.decoder4 training (dm 4) r4.1 r4.2 (some dim4)
  let y3 := decForward net.decoder3 training (dm 3) y4 r3.2 (some dim3)
  let y2 := decForward net.decoder2 training (dm 2) y3 r2.2 (some dim2)
  let y1 := decForward net.decoder1 training (dm 1) y2 r1.2 (some dim1)
  let y0 := decForward net.decoder0 training (dm 0) y1 r0.2 (some dim0)
  softmax2d e (conv3x3 net.conv y0)

/-- `BayesEncoderSegNet.__init__`: build the base network, then overwrite all
five encoder attributes with freshly constructed Bayesian encoder blocks of
the same channel/layer configuration (fresh parameters from `J`). -/
def mkBayesEncoderSegNet (inC outC : Nat) (I : SegNetInit)
    (J : Nat → Nat → UnitInit) : SegNet :=
  { mkSegNet inC outC I with
    encoder0 := mkEncBlock inC 64 2 true (J 0)
    encoder1 := mkEncBlock 64 128 2 true (J 1)
    encoder2 := mkEncBlock 128 256 3 true (J 2)
    encoder3 := mkEncBlock 256 512 3 true (J 3)
    encoder4 := mkEncBlock 512 512 3 true (J 4) }

/-- `BayesCenterSegNet.__init__`: build the base network, then overwrite
encoder stages 2-4 and decoder stages 4-2 with freshly constructed Bayesian
blocks of the same channel/layer configuration. -/
def mkBayesCenterSegNet (inC outC : Nat) (I : SegNetInit)
    (J K : Nat → Nat → UnitInit) : SegNet :=
  { mkSegNet inC outC I with
    encoder2 := mkEncBlock 128 256 3 true (J 2)
    encoder3 := mkEncBlock 256 512 3 true (J 3)
    encoder4 := mkEncBlock 512 512 3 true (J 4)
    decoder4 := mkDecBlock 512 512 3 true (K 4)
    decoder3 := mkDecBlock 512 256 3 true (K 3)
    decoder2 := mkDecBlock 256 128 3 true (K 2) }

/-! ## Spec-side forward pass (for the wiring refinement claim)

The two loop definitions below transcribe the specification's description of
`SegNet.forward` ("records each stage's pre-pooling shape before calling that
encoder; runs encoders 0→4 sequentially, collecting (tensor, indices) pairs;
runs decoders 4→0 sequentially, each consuming the indices and shape from its
mirror encoder stage"); they are compared against `segnetForward`, which is
translated from the source. -/

/-- Spec-side encoder loop: for each encoder block in order, record the
current tensor's size, run the block, and collect the (indices, size) pair of
each stage; `k` is the stage number used to select the dropout mask. -/
def specEncoderLoop (training : Bool) (em : Nat → Nat → Nat → Bool) :
    List EncBlockB → Nat → Tensor → Tensor × List (IdxTensor × Size4)
  | [], _, x => (x, [])
  | b :: rest, k, x =>
    let d := sizeOf4 x
    let r := encForward b training (em k) x
    let t := specEncoderLoop training em rest (k+1) r.1
    (t.1, (r.2, d) :: t.2)

/-- Spec-side decoder loop: run the decoder blocks in order, each consuming
the next (indices, target size) pair; `k` is the stage number (counting
down from 4) used to select the dropout mask. -/
def specDecoderLoop (training : Bool) (dm : Nat → Nat → Nat → Bool) :
    List DecBlockB → List (IdxTensor × Size4) → Nat → Tensor → Tensor
  | [], _, _, x => x
  | _ :: _, [], _, x => x
  | b :: rest, p :: ps, k, x =>
    specDecoderLoop training dm rest ps (k-1)
      (decForward b training (dm k) x p.1 (some p.2))

/-! ## Helper lemmas -/

theorem mem_rowMajor {h w : Nat} {ij : Nat × Nat} :
    ij ∈ rowMajor h w ↔ ij.1 < h ∧ ij.2 < w := by
  obtain ⟨i, j⟩ := ij
  simp [rowMajor]

theorem getLast_of_all_eq {α : Type} :
    ∀ (l : List α) (a : α), l ≠ [] → (∀ b ∈ l, b = a) → l.getLast? = some a
  | [], a, hne, _ => absurd rfl hne
  | [b], a, _, hall => by simp [hall b (by simp)]
  | b :: c :: t, a, _, hall => by
      rw [List.getLast?_cons_cons]
      exact getLast_of_all_eq (c :: t) a (by simp) (fun y hy => hall y (by simp [hy]))

/-- An output position no index points to receives zero from the unpooling. -/
theorem maxUnpool2_zero (x : Tensor) (idx : IdxTensor) (osize : Option Size4)
    (n c p q : Nat)
    (h : ∀ i j, i < x.height → j < x.width →
      idx.data n c i j ≠ p * unpoolW x osize + q) :
    (maxUnpool2 x idx osize).data n c p q = 0 := by
  have hf : ((rowMajor x.height x.width).filter
      (fun ij => decide (idx.data n c ij.1 ij.2 = p * unpoolW x osize + q))) = [] := by
    rw [List.filter_eq_nil_iff]
    intro a ha
    have hm := mem_rowMajor.mp ha
    simp only [decide_eq_true_eq]
    exact h a.1 a.2 hm.1 hm.2
  simp only [maxUnpool2]
  rw [hf]
  rfl

/-- An output position pointed to by exactly one index receives the input
value recorded at that index. -/
theorem maxUnpool2_scatter (x : Tensor) (idx : IdxTensor) (osize : Option Size4)
    (n c p q i j : Nat) (hi : i < x.height) (hj : j < x.width)
    (hidx : idx.data n c i j = p * unpoolW x osize + q)
    (huniq : ∀ a b, a < x.height → b < x.width →
      idx.data n c a b = p * unpoolW x osize + q → (a, b) = (i, j)) :
    (maxUnpool2 x idx osize).data n c p q = x.data n c i j := by
  have hmem : (i, j) ∈ (rowMajor x.height x.width).filter
      (fun ij => decide (idx.data n c ij.1 ij.2 = p * unpoolW x osize + q)) := by
    rw [List.mem_filter]
    exact ⟨mem_rowMajor.mpr ⟨hi, hj⟩, by simpa using hidx⟩
  have hlast : ((rowMajor x.height x.width).filter
      (fun ij => decide (idx.data n c ij.1 ij.2 = p * unpoolW x osize + q))).getLast? =
      some (i, j) := by
    apply getLast_of_all_eq _ _ (List.ne_nil_of_mem hmem)
    intro b hb
    rw [List.mem_filter] at hb
    have hm := mem_rowMajor.mp hb.1
    have he : idx.data n c b.1 b.2 = p * unpoolW x osize + q := by
      simpa using hb.2
    have := huniq b.1 b.2 hm.1 hm.2 he
    simpa using this
  simp only [maxUnpool2]
  rw [hlast]

theorem applyUnits_height (us : List ConvUnit) (x : Tensor) :
    (applyUnits us x).height = x.height := by
  induction us generalizing x with
  | nil => rfl
  | cons u rest ih => exact (ih (applyUnit u x)).trans rfl

theorem applyUnits_width (us : List ConvUnit) (x : Tensor) :
    (applyUnits us x).width = x.width := by
  induction us generalizing x with
  | nil => rfl
  | cons u rest ih => exact (ih (applyUnit u x)).trans rfl

/-- The channel softmax yields a probability vector at every position. -/
theorem softmax2d_prob (e : ℚ → ℚ) (he : ∀ q, 0 < e q) (y : Tensor)
    (hc : 0 < y.channels) (n i j : Nat) :
    (∀ c, 0 ≤ (softmax2d e y).data n c i j) ∧
    ∑ c ∈ Finset.range y.channels, (softmax2d e y).data n c i j = 1 := by
  have hS : 0 < ∑ k ∈ Finset.range y.channels, e (y.data n k i j) := by
    apply Finset.sum_pos (fun k _ => he _)
    exact Finset.nonempty_range_iff.mpr (Nat.pos_iff_ne_zero.mp hc)
  constructor
  · intro c
    exact le_of_lt (div_pos (he _) hS)
  · show ∑ c ∈ Finset.range y.channels,
      (e (y.data n c i j) / ∑ k ∈ Finset.range y.channels, e (y.data n k i j)) = 1
    rw [← Finset.sum_div]
    exact div_self (ne_of_gt hS)

/-! ## Concrete fixtures used by witness theorems -/

/-- Trivial learned data for one unit. -/
def witUnit : UnitInit := ⟨fun _ _ _ _ => 0, fun _ => 0, fun _ => 1, fun _ => 0⟩

/-- Trivial per-unit parameter supply. -/
def witSupply : Nat → UnitInit := fun _ => witUnit

/-- Trivial whole-network parameter supply. -/
def witNetInit : SegNetInit := ⟨fun _ _ => witUnit, fun _ _ => witUnit, fun _ _ _ _ => 0, fun _ => 0⟩

/-- Always-keep dropout masks. -/
def witMask2 : Nat → Nat → Bool := fun _ _ => false

/-- Always-keep stage-indexed dropout masks. -/
def witMask3 : Nat → Nat → Nat → Bool := fun _ _ _ => false

/-- All-zero tensor data. -/
def zeroData : Nat → Nat → Nat → Nat → ℚ := fun _ _ _ _ => 0

/-- A 1x1x32x32 input image. -/
def witImage : Tensor := ⟨1, 1, 32, 32, zeroData⟩

/-- A 1x1x2x2 feature tensor. -/
def witSmall : Tensor := ⟨1, 1, 2, 2, zeroData⟩

/-- A 1x1x1x1 index tensor. -/
def witIdx : IdxTensor := ⟨1, 1, 1, 1, fun _ _ _ _ => 0⟩

/-! ## Claims -/

/-- C1: For every positive `in_channels` and `out_channels` and every input
tensor of shape `[B, in_channels, H, W]` with `H` and `W` divisible by 32,
`SegNet(in_channels, out_channels).forward` returns a tensor of shape
`[B, out_channels, H, W]`: same batch and spatial size as the input, with
`out_channels` channels. -/
theorem segnet_forward_shape (e : ℚ → ℚ) (inC outC : Nat) (I : SegNetInit)
    (training : Bool) (em dm : Nat → Nat → Nat → Bool) (B H W : Nat)
    (d : Nat → Nat → Nat → Nat → ℚ)
    (_hin : 0 < inC) (_hout : 0 < outC) (_hH : 32 ∣ H) (_hW : 32 ∣ W) :
    sizeOf4 (segnetForward e (mkSegNet inC outC I) training em dm ⟨B, inC, H, W, d⟩) =
      ⟨B, outC, H, W⟩ := rfl

theorem segnet_forward_shape_wit :
    0 < 1 ∧ (32 ∣ 32) ∧
    sizeOf4 (segnetForward (fun _ => 1) (mkSegNet 1 1 witNetInit) false witMask3 witMask3
      ⟨1, 1, 32, 32, zeroData⟩) = ⟨1, 1, 32, 32⟩ :=
  ⟨by decide, by decide,
    segnet_forward_shape (fun _ => 1) 1 1 witNetInit false witMask3 witMask3 1 32 32
      zeroData (by decide) (by decide) (by decide) (by decide)⟩

/-- C2: At every spatial position of the output of `SegNet.forward`, the
values across the channel axis are non-negative and sum to 1, i.e. each
pixel's channel vector is a probability distribution. Stated for a positive
channel count and the runtime's (positive) exponential; in the exact
arithmetic of the embedding the sum is exactly 1. -/
theorem segnet_forward_prob (e : ℚ → ℚ) (inC outC : Nat) (I : SegNetInit)
    (training : Bool) (em dm : Nat → Nat → Nat → Bool) (x : Tensor) (n i j : Nat)
    (he : ∀ q, 0 < e q) (hout : 0 < outC) :
    (∀ c, 0 ≤ (segnetForward e (mkSegNet inC outC I) training em dm x).data n c i j) ∧
    ∑ c ∈ Finset.range outC,
      (segnetForward e (mkSegNet inC outC I) training em dm x).data n c i j = 1 := by
  exact softmax2d_prob e he _ hout n i j

theorem segnet_forward_prob_wit :
    (∀ q : ℚ, 0 < (fun _ : ℚ => (1:ℚ)) q) ∧ 0 < 1 ∧
    ((∀ c, 0 ≤ (segnetForward (fun _ : ℚ => (1:ℚ)) (mkSegNet 1 1 witNetInit) false
        witMask3 witMask3 witSmall).data 0 c 0 0) ∧
      ∑ c ∈ Finset.range 1,
        (segnetForward (fun _ : ℚ => (1:ℚ)) (mkSegNet 1 1 witNetInit) false
          witMask3 witMask3 witSmall).data 0 c 0 0 = 1) :=
  ⟨fun _ => one_pos, by decide,
    segnet_forward_prob (fun _ : ℚ => (1:ℚ)) 1 1 witNetInit false witMask3 witMask3
      witSmall 0 0 0 (fun _ => one_pos) (by decide)⟩

/-- C3: `SegNet.forward` is the mirror-paired loop the specification
describes: it records each stage's pre-pooling size before running that
encoder, runs encoders 0→4 collecting (indices, size) pairs, then runs
decoders 4→0, each consuming exactly the index set and pre-pooling size of
its mirror encoder stage (the collected list reversed), before the final
convolution and softmax. -/
theorem segnet_forward_mirror_loop (e : ℚ → ℚ) (net : SegNet) (training : Bool)
    (em dm : Nat → Nat → Nat → Bool) (x : Tensor) :
    segnetForward e net training em dm x =
      (fun r => softmax2d e (conv3x3 net.conv
        (specDecoderLoop training dm
          [net.decoder4, net.decoder3, net.decoder2, net.decoder1, net.decoder0]
          r.2.reverse 4 r.1)))
      (specEncoderLoop training em
        [net.encoder0, net.encoder1, net.encoder2, net.encoder3, net.encoder4] 0 x) := rfl

/-- C4: `SegNet(in_channels, out_channels)` is built with exactly 5 encoder
and 5 decoder blocks whose unit channel configurations and layer counts are:
enc0 `in→64` (2 units), enc1 `64→128` (2), enc2 `128→256` (3), enc3
`256→512` (3), enc4 `512→512` (3); dec4 `512→512` (3), dec3 `512→256` (3),
dec2 `256→128` (3), dec1 `128→64` (2), dec0 `64→64` (1); and the final
3x3 padded convolution (`conv3x3`) maps `64 → out_channels`. -/
theorem segnet_topology (inC outC : Nat) (I : SegNetInit) :
    (mkSegNet inC outC I).encoder0.units.map unitChannels = [(inC, 64), (64, 64)] ∧
    (mkSegNet inC outC I).encoder1.units.map unitChannels = [(64, 128), (128, 128)] ∧
    (mkSegNet inC outC I).encoder2.units.map unitChannels =
      [(128, 256), (256, 256), (256, 256)] ∧
    (mkSegNet inC outC I).encoder3.units.map unitChannels =
      [(256, 512), (512, 512), (512, 512)] ∧
    (mkSegNet inC outC I).encoder4.units.map unitChannels =
      [(512, 512), (512, 512), (512, 512)] ∧
    (mkSegNet inC outC I).decoder4.units.map unitChannels =
      [(512, 512), (512, 512), (512, 512)] ∧
    (mkSegNet inC outC I).decoder3.units.map unitChannels =
      [(512, 512), (512, 512), (512, 256)] ∧
    (mkSegNet inC outC I).decoder2.units.map unitChannels =
      [(256, 256), (256, 256), (256, 128)] ∧
    (mkSegNet inC outC I).decoder1.units.map unitChannels = [(128, 128), (128, 64)] ∧
    (mkSegNet inC outC I).decoder0.units.map unitChannels = [(64, 64)] ∧
    (mkSegNet inC outC I).conv.inC = 64 ∧ (mkSegNet inC outC I).conv.outC = outC :=
  ⟨rfl, rfl, rfl, rfl, rfl, rfl, rfl, rfl, rfl, rfl, rfl, rfl⟩

/-- C5: For `num_layers ≥ 1`, an encoder block has a first unit mapping
`in_channels → out_channels` followed by `num_layers - 1` units mapping
`out_channels → out_channels`; its forward applies the unit stack then the
2x2 stride-2 max-pool returning both the pooled tensor and the argmax index
set, and the pooled tensor's spatial size is `floor(input/2)` in each
dimension. -/
theorem enc_block_spec (inC outC : Nat) (n : Int) (ps : Nat → UnitInit)
    (training : Bool) (m : Nat → Nat → Bool) (x : Tensor) (_hn : 1 ≤ n) :
    (mkEncBlock inC outC n false ps).units.map unitChannels =
      (inC, outC) :: List.replicate (n - 1).toNat (outC, outC) ∧
    encForward (mkEncBlock inC outC n false ps) training m x =
      maxPool2 (applyUnits (mkEncBlock inC outC n false ps).units x) ∧
    (encForward (mkEncBlock inC outC n false ps) training m x).1.height = x.height / 2 ∧
    (encForward (mkEncBlock inC outC n false ps) training m x).1.width = x.width / 2 := by
  refine ⟨?_, rfl, ?_, ?_⟩
  · simp [mkEncBlock, unitChannels, makeLayer, List.map_map, Function.comp_def]
  · exact congrArg (fun t => t / 2) (applyUnits_height _ x)
  · exact congrArg (fun t => t / 2) (applyUnits_width _ x)

theorem enc_block_spec_wit :
    1 ≤ (2:Int) ∧
    ((mkEncBlock 1 1 2 false witSupply).units.map unitChannels =
      (1, 1) :: List.replicate ((2:Int) - 1).toNat (1, 1) ∧
    encForward (mkEncBlock 1 1 2 false witSupply) false witMask2 witSmall =
      maxPool2 (applyUnits (mkEncBlock 1 1 2 false witSupply).units witSmall) ∧
    (encForward (mkEncBlock 1 1 2 false witSupply) false witMask2 witSmall).1.height =
      witSmall.height / 2 ∧
    (encForward (mkEncBlock 1 1 2 false witSupply) false witMask2 witSmall).1.width =
      witSmall.width / 2) :=
  ⟨by decide, enc_block_spec 1 1 2 witSupply false witMask2 witSmall (by decide)⟩

/-- C6: A decoder block's forward first max-unpools its input — scattering
the input's values to the positions given by the index set, zeros elsewhere,
at twice the input spatial resolution when no target size is given and at
the provided target size otherwise — and then applies `num_layers - 1` units
mapping `in_channels → in_channels` followed by one final unit mapping
`in_channels → out_channels`. The scatter conjunct assumes the pointed
position has a unique source (always the case for genuine pooling indices;
on duplicates the runtime's row-major-last write wins). -/
theorem dec_block_spec (inC outC : Nat) (n : Int) (ps : Nat → UnitInit)
    (training : Bool) (m : Nat → Nat → Bool) (x : Tensor) (idx : IdxTensor)
    (osize : Option Size4) (_hn : 1 ≤ n) :
    (mkDecBlock inC outC n false ps).units.map unitChannels =
      List.replicate (n - 1).toNat (inC, inC) ++ [(inC, outC)] ∧
    decForward (mkDecBlock inC outC n false ps) training m x idx osize =
      applyUnits (mkDecBlock inC outC n false ps).units (maxUnpool2 x idx osize) ∧
    (maxUnpool2 x idx none).height = 2 * x.height ∧
    (maxUnpool2 x idx none).width = 2 * x.width ∧
    (∀ s, (maxUnpool2 x idx (some s)).height = s.height ∧
      (maxUnpool2 x idx (some s)).width = s.width) ∧
    (∀ b c p q, (∀ i j, i < x.height → j < x.width →
        idx.data b c i j ≠ p * (maxUnpool2 x idx osize).width + q) →
      (maxUnpool2 x idx osize).data b c p q = 0) ∧
    (∀ b c p q i j, i < x.height → j < x.width →
      idx.data b c i j = p * (maxUnpool2 x idx osize).width + q →
      (∀ a a2, a < x.height → a2 < x.width →
        idx.data b c a a2 = p * (maxUnpool2 x idx osize).width + q → (a, a2) = (i, j)) →
      (maxUnpool2 x idx osize).data b c p q = x.data b c i j) := by
  refine ⟨?_, rfl, rfl, rfl, fun s => ⟨rfl, rfl⟩,
    fun b c p q h => maxUnpool2_zero x idx osize b c p q h,
    fun b c p q i j hi hj hx hu => maxUnpool2_scatter x idx osize b c p q i j hi hj hx hu⟩
  simp [mkDecBlock, unitChannels, makeLayer, List.map_map, Function.comp_def]

theorem dec_block_spec_wit :
    1 ≤ (2:Int) ∧
    ((mkDecBlock 1 1 2 false witSupply).units.map unitChannels =
      List.replicate ((2:Int) - 1).toNat (1, 1) ++ [(1, 1)] ∧
    decForward (mkDecBlock 1 1 2 false witSupply) false witMask2 witSmall witIdx none =
      applyUnits (mkDecBlock 1 1 2 false witSupply).units (maxUnpool2 witSmall witIdx none) ∧
    (maxUnpool2 witSmall witIdx none).height = 2 * witSmall.height ∧
    (maxUnpool2 witSmall witIdx none).width = 2 * witSmall.width ∧
    (∀ s, (maxUnpool2 witSmall witIdx (some s)).height = s.height ∧
      (maxUnpool2 witSmall witIdx (some s)).width = s.width) ∧
    (∀ b c p q, (∀ i j, i < witSmall.height → j < witSmall.width →
        witIdx.data b c i j ≠ p * (maxUnpool2 witSmall witIdx none).width + q) →
      (maxUnpool2 witSmall witIdx none).data b c p q = 0) ∧
    (∀ b c p q i j, i < witSmall.height → j < witSmall.width →
      witIdx.data b c i j = p * (maxUnpool2 witSmall witIdx none).width + q →
      (∀ a a2, a < witSmall.height → a2 < witSmall.width →
        witIdx.data b c a a2 = p * (maxUnpool2 witSmall witIdx none).width + q →
          (a, a2) = (i, j)) →
      (maxUnpool2 witSmall witIdx none).data b c p q = witSmall.data b c i j)) :=
  ⟨by decide,
    dec_block_spec 1 1 2 witSupply false witMask2 witSmall witIdx none (by decide)⟩

/-- C7: `BayesEncoderSegNet` replaces all five encoder blocks of the base
network with Bayesian encoder blocks of the same channel/layer configuration
and leaves every decoder block (and the final convolution) unchanged;
`BayesCenterSegNet` replaces exactly encoder stages 2-4 and decoder stages
4-2 with Bayesian counterparts of the same configuration, while encoder
stages 0-1 and decoder stages 0-1 remain the plain deterministic blocks.
Both variants are plain `SegNet` records, so they inherit `segnetForward`
unchanged by construction. -/
theorem bayes_variants_structure (inC outC : Nat) (I : SegNetInit)
    (J K : Nat → Nat → UnitInit) :
    (mkBayesEncoderSegNet inC outC I J).encoder0.bayes = true ∧
    (mkBayesEncoderSegNet inC outC I J).encoder1.bayes = true ∧
    (mkBayesEncoderSegNet inC outC I J).encoder2.bayes = true ∧
    (mkBayesEncoderSegNet inC outC I J).encoder3.bayes = true ∧
    (mkBayesEncoderSegNet inC outC I J).encoder4.bayes = true ∧
    (mkBayesEncoderSegNet inC outC I J).encoder0.units.map unitChannels =
      (mkSegNet inC outC I).encoder0.units.map unitChannels ∧
    (mkBayesEncoderSegNet inC outC I J).encoder1.units.map unitChannels =
      (mkSegNet inC outC I).encoder1.units.map unitChannels ∧
    (mkBayesEncoderSegNet inC outC I J).encoder2.units.map unitChannels =
      (mkSegNet inC outC I).encoder2.units.map unitChannels ∧
    (mkBayesEncoderSegNet inC outC I J).encoder3.units.map unitChannels =
      (mkSegNet inC outC I).encoder3.units.map unitChannels ∧
    (mkBayesEncoderSegNet inC outC I J).encoder4.units.map unitChannels =
      (mkSegNet inC outC I).encoder4.units.map unitChannels ∧
    (mkBayesEncoderSegNet inC outC I J).decoder4 = (mkSegNet inC outC I).decoder4 ∧
    (mkBayesEncoderSegNet inC outC I J).decoder3 = (mkSegNet inC outC I).decoder3 ∧
    (mkBayesEncoderSegNet inC outC I J).decoder2 = (mkSegNet inC outC I).decoder2 ∧
    (mkBayesEncoderSegNet inC outC I J).decoder1 = (mkSegNet inC outC I).decoder1 ∧
    (mkBayesEncoderSegNet inC outC I J).decoder0 = (mkSegNet inC outC I).decoder0 ∧
    (mkBayesEncoderSegNet inC outC I J).conv = (mkSegNet inC outC I).conv ∧
    (mkBayesCenterSegNet inC outC I J K).encoder0 = (mkSegNet inC outC I).encoder0 ∧
    (mkBayesCenterSegNet inC outC I J K).encoder1 = (mkSegNet inC outC I).encoder1 ∧
    (mkBayesCenterSegNet inC outC I J K).decoder1 = (mkSegNet inC outC I).decoder1 ∧
    (mkBayesCenterSegNet inC outC I J K).decoder0 = (mkSegNet inC outC I).decoder0 ∧
    (mkBayesCenterSegNet inC outC I J K).conv = (mkSegNet inC outC I).conv ∧
    (mkBayesCenterSegNet inC outC I J K).encoder2.bayes = true ∧
    (mkBayesCenterSegNet inC outC I J K).encoder3.bayes = true ∧
    (mkBayesCenterSegNet inC outC I J K).encoder4.bayes = true ∧
    (mkBayesCenterSegNet inC outC I J K).decoder4.bayes = true ∧
    (mkBayesCenterSegNet inC outC I J K).decoder3.bayes = true ∧
    (mkBayesCenterSegNet inC outC I J K).decoder2.bayes = true ∧
    (mkBayesCenterSegNet inC outC I J K).encoder2.units.map unitChannels =
      (mkSegNet inC outC I).encoder2.units.map unitChannels ∧
    (mkBayesCenterSegNet inC outC I J K).encoder3.units.map unitChannels =
      (mkSegNet inC outC I).encoder3.units.map unitChannels ∧
    (mkBayesCenterSegNet inC outC I J K).encoder4.units.map unitChannels =
      (mkSegNet inC outC I).encoder4.units.map unitChannels ∧
    (mkBayesCenterSegNet inC outC I J K).decoder4.units.map unitChannels =
      (mkSegNet inC outC I).decoder4.units.map unitChannels ∧
    (mkBayesCenterSegNet inC outC I J K).decoder3.units.map unitChannels =
      (mkSegNet inC outC I).decoder3.units.map unitChannels ∧
    (mkBayesCenterSegNet inC outC I J K).decoder2.units.map unitChannels =
      (mkSegNet inC outC I).decoder2.units.map unitChannels ∧
    (mkSegNet inC outC I).encoder0.bayes = false ∧
    (mkSegNet inC outC I).encoder1.bayes = false ∧
    (mkSegNet inC outC I).encoder2.bayes = false ∧
    (mkSegNet inC outC I).encoder3.bayes = false ∧
    (mkSegNet inC outC I).encoder4.bayes = false ∧
    (mkSegNet inC outC I).decoder4.bayes = false ∧
    (mkSegNet inC outC I).decoder3.bayes = false ∧
    (mkSegNet inC outC I).decoder2.bayes = false ∧
    (mkSegNet inC outC I).decoder1.bayes = false ∧
    (mkSegNet inC outC I).decoder0.bayes = false :=
  ⟨rfl, rfl, rfl, rfl, rfl, rfl, rfl, rfl, rfl, rfl, rfl, rfl, rfl, rfl, rfl, rfl,
   rfl, rfl, rfl, rfl, rfl, rfl, rfl, rfl, rfl, rfl, rfl, rfl, rfl, rfl, rfl, rfl,
   rfl, rfl, rfl, rfl, rfl, rfl, rfl, rfl, rfl, rfl, rfl⟩

/-- C8: In evaluation mode the stochastic channel-zeroing step (Dropout2d)
is the identity, so for every network (any combination of plain and Bayesian
blocks) two forward calls in evaluation mode with the same input and the
same parameters — i.e. with arbitrary, possibly different dropout masks —
yield identical outputs. -/
theorem eval_mode_deterministic :
    (∀ (m : Nat → Nat → Bool) (x : Tensor), dropout2d false m x = x) ∧
    ∀ (e : ℚ → ℚ) (net : SegNet) (em dm em2 dm2 : Nat → Nat → Nat → Bool) (x : Tensor),
      segnetForward e net false em dm x = segnetForward e net false em2 dm2 x :=
  ⟨fun _ _ => rfl, fun _ _ _ _ _ _ _ => rfl⟩

/-- C9: A Bayesian encoder block returns the index set computed by the
max-pool before dropout; dropout modifies only the pooled feature tensor
(in this pure embedding the pre-dropout tensor is trivially unchanged, which
models `inplace=False`), so in both modes the indices equal those the plain
encoder block returns for the same input and parameters. -/
theorem bayes_enc_indices_frame (us : List ConvUnit) (training : Bool)
    (m m2 : Nat → Nat → Bool) (x : Tensor) :
    (encForward ⟨us, true⟩ training m x).2 = (maxPool2 (applyUnits us x)).2 ∧
    (encForward ⟨us, true⟩ training m x).2 = (encForward ⟨us, false⟩ training m2 x).2 ∧
    encForward ⟨us, false⟩ training m2 x = maxPool2 (applyUnits us x) :=
  ⟨rfl, rfl, rfl⟩

/-- C10: The `num_layers ≥ 1` precondition is not enforced: for every
integer `num_layers ≤ 1` (including 0 and negatives), constructing an
encoder or decoder block succeeds (the constructors are total) and yields a
block with exactly one unit mapping `in_channels → out_channels`, identical
to the `num_layers = 1` block. -/
theorem num_layers_clamp (inC outC : Nat) (n : Int) (b : Bool) (ps : Nat → UnitInit)
    (hn : n ≤ 1) :
    mkEncBlock inC outC n b ps = mkEncBlock inC outC 1 b ps ∧
    (mkEncBlock inC outC n b ps).units = [makeLayer inC outC (ps 0)] ∧
    mkDecBlock inC outC n b ps = mkDecBlock inC outC 1 b ps ∧
    (mkDecBlock inC outC n b ps).units = [makeLayer inC outC (ps 0)] := by
  have h0 : (n - 1).toNat = 0 := by omega
  refine ⟨?_, ?_, ?_, ?_⟩ <;> simp [mkEncBlock, mkDecBlock, h0]

theorem num_layers_clamp_wit :
    (-3 : Int) ≤ 1 ∧
    (mkEncBlock 1 1 (-3) false witSupply = mkEncBlock 1 1 1 false witSupply ∧
    (mkEncBlock 1 1 (-3) false witSupply).units = [makeLayer 1 1 (witSupply 0)] ∧
    mkDecBlock 1 1 (-3) false witSupply = mkDecBlock 1 1 1 false witSupply ∧
    (mkDecBlock 1 1 (-3) false witSupply).units = [makeLayer 1 1 (witSupply 0)]) :=
  ⟨by decide, num_layers_clamp 1 1 (-3) false witSupply (by decide)⟩
